import Mathlib

/-!
Shallow embedding of the consensus core (`raft.go`) of tinykv: the `Raft`
struct, its role transitions (`becomeFollower`, `becomeCandidate`,
`becomeLeader`), the message dispatcher `Step` with its term preamble and
per-role handlers, the vote tally `poll`, the timer driver `tick`, and the
constructor `newRaft`.

Conventions of the embedding:
- Go `uint64` values are modelled as `Nat`. The only arithmetic the code
  performs on a `uint64` is the term increment `reset(r.Term + 1)` in
  `becomeCandidate`, which is embedded as the wrapping `uadd64` (addition
  modulo `2 ^ 64`), matching Go's uint64 overflow; every other use of a
  `uint64` is an assignment or a comparison. The Go `int` tick counters are
  modelled as `Nat`: they are only incremented and compared, and no theorem
  below depends on their overflow behaviour.
- Go maps are modelled as association lists; `mapPut` has Go assignment
  semantics (replace the value when the key is present, append otherwise),
  so the list length equals the number of distinct keys, matching Go `len`.
  Go map iteration order is unspecified; the embedding iterates in list
  order, and no theorem below depends on the order.
- Go logging calls are pure observations and are omitted.
- The Go methods return `error`; `Step` is embedded as returning
  `Raft × Option GoError`. The per-role handlers `stepLeader`,
  `stepFollower`, `stepCandidate` all return `nil` in the source and their
  return value is discarded by `Step`, so they are embedded as returning
  just the updated state.
-/

namespace TinyKV

/-- `None` is the placeholder node ID meaning no leader / no vote. -/
def None : Nat := 0

/-- Role of a node in the cluster (`StateType`). -/
inductive StateType where
  | StateFollower
  | StateCandidate
  | StateLeader
deriving DecidableEq, Repr, Inhabited

open StateType

/-- Message types of `eraftpb.MessageType` that the dispatcher can see. -/
inductive MessageType where
  | MsgHup
  | MsgBeat
  | MsgPropose
  | MsgAppend
  | MsgAppendResponse
  | MsgRequestVote
  | MsgRequestVoteResponse
  | MsgSnapshot
  | MsgHeartbeat
  | MsgHeartbeatResponse
  | MsgTransferLeader
  | MsgTimeoutNow
deriving DecidableEq, Repr, Inhabited

open MessageType

/-- The fields of `eraftpb.Message` read or written by the code under study
(`Entries`, `Commit`, `Snapshot` and `RejectHint` are never touched by the
implemented paths and are omitted). Absent fields default to Go zero values. -/
structure Message where
  MsgType : MessageType
  To : Nat := 0
  From : Nat := 0
  Term : Nat := 0
  LogTerm : Nat := 0
  Index : Nat := 0
  Reject : Bool := false
deriving DecidableEq, Repr, Inhabited

/-- Errors distinguished by the package; `ErrProposalDropped` is declared in
the source as the error a dropped proposal should surface through `Step`. -/
inductive GoError where
  | errProposalDropped
deriving DecidableEq, Repr

/-- A follower's replication progress in the leader's view. -/
structure Progress where
  Match : Nat := 0
  Next : Nat := 0
deriving DecidableEq, Repr, Inhabited

/-- Modelled from the spec: the log view (`RaftLog`) is defined in a source
file not provided here; the code under study only reads its `LastIndex` and
`LastTerm` accessors (spec section 4.5: last index and term of the last
entry), so it is embedded as those two watermarks. -/
structure RaftLog where
  lastIndex : Nat := 0
  lastTerm : Nat := 0
deriving DecidableEq, Repr, Inhabited

def RaftLog.LastIndex (l : RaftLog) : Nat := l.lastIndex

def RaftLog.LastTerm (l : RaftLog) : Nat := l.lastTerm

/-- Go map assignment `m[k] = v`: replace the value when the key is present,
append the pair otherwise. -/
def mapPut {α : Type} (m : List (Nat × α)) (k : Nat) (v : α) : List (Nat × α) :=
  match m with
  | [] => [(k, v)]
  | (k', v') :: rest => if k' = k then (k, v) :: rest else (k', v') :: mapPut rest k v

/-- Go `len` on a map built with `mapPut`: the number of entries. -/
def mapLen {α : Type} (m : List (Nat × α)) : Nat := m.length

/-- Whether a key is present in the map. -/
def mapHasKey {α : Type} (m : List (Nat × α)) (k : Nat) : Bool :=
  m.any (fun p => p.1 == k)

/-- The modulus of Go `uint64` arithmetic. -/
def uint64Mod : Nat := 2 ^ 64

/-- Go `uint64` addition: wraps around modulo `2 ^ 64`. -/
def uadd64 (a b : Nat) : Nat := (a + b) % uint64Mod

/-- The `Raft` struct: the whole mutable state of one node. -/
structure Raft where
  id : Nat
  Term : Nat := 0
  Vote : Nat := 0
  RaftLog : RaftLog := {}
  Prs : List (Nat × Progress) := []
  State : StateType := StateFollower
  votes : List (Nat × Bool) := []
  msgs : List Message := []
  Lead : Nat := 0
  heartbeatTimeout : Nat := 0
  electionTimeout : Nat := 0
  heartbeatElapsed : Nat := 0
  electionElapsed : Nat := 0
  leadTransferee : Nat := 0
  PendingConfIndex : Nat := 0
deriving DecidableEq, Repr, Inhabited

/-- `send` stamps `From = r.id` and appends the message to the outbound queue. -/
def Raft.send (r : Raft) (m : Message) : Raft :=
  { r with msgs := r.msgs ++ [{ m with From := r.id }] }

/-- `reset(term)`: the source clears `Vote` only when the passed term differs
from the current one, then zeroes `Lead` and both tick counters (the source
does not touch `leadTransferee`). -/
def Raft.reset (r : Raft) (term : Nat) : Raft :=
  let r' := if r.Term ≠ term then { r with Term := term, Vote := None } else r
  { r' with Lead := 0, electionElapsed := 0, heartbeatElapsed := 0 }

/-- `becomeFollower(term, lead)`: the source calls `reset(r.Term)` with the
CURRENT term — not the new one — so `reset` never sees a term change and the
recorded `Vote` survives; then it assigns `Lead`, `Term` and `State`. -/
def Raft.becomeFollower (r : Raft) (term lead : Nat) : Raft :=
  let r' := r.reset r.Term
  { r' with Lead := lead, Term := term, State := StateFollower }

/-- `becomeCandidate`: `reset(Term + 1)` — a `uint64` increment, which wraps
at `2 ^ 64` — then record the self `Vote`, and replace the tally with a
fresh empty map (no self-vote is inserted into `votes`). -/
def Raft.becomeCandidate (r : Raft) : Raft :=
  let r' := r.reset (uadd64 r.Term 1)
  { r' with State := StateCandidate, Vote := r.id, votes := [] }

/-- `becomeLeader`: `reset(Term)` and switch the role (the no-op entry and
the broadcast are unimplemented in the source). -/
def Raft.becomeLeader (r : Raft) : Raft :=
  let r' := r.reset r.Term
  { r' with State := StateLeader }

/-- `campaign`: become candidate, then send a `RequestVote` carrying the
last log index and term to every id in `Prs` (own id included). -/
def Raft.campaign (r : Raft) : Raft :=
  let r' := r.becomeCandidate
  let lastIndexId := r'.RaftLog.LastIndex
  let lastLogTerm := r'.RaftLog.LastTerm
  r'.Prs.foldl
    (fun acc p =>
      acc.send { MsgType := MsgRequestVote, From := acc.id, To := p.1,
                 Term := acc.Term, Index := lastIndexId, LogTerm := lastLogTerm })
    r'

/-- `hup`: ignore when already leader, otherwise start a campaign. -/
def Raft.hup (r : Raft) : Raft :=
  if r.State = StateLeader then r else r.campaign

/-- `poll(from, vote)`: a denied vote returns `false` without recording
anything; a granted vote is recorded under `from` and the result is the
source's quorum test `len(votes) > 1 + len(Prs)/2`. -/
def Raft.poll (r : Raft) (frm : Nat) (vote : Bool) : Raft × Bool :=
  if !vote then (r, false)
  else
    let r' := { r with votes := mapPut r.votes frm true }
    if mapLen r'.votes > 1 + mapLen r'.Prs / 2 then (r', true) else (r', false)

/-- `stepLeader`: empty in the source. -/
def Raft.stepLeader (r : Raft) (_m : Message) : Raft := r

/-- `stepFollower`: only a `MsgHup` arm (dead code, since `Step` intercepts
`MsgHup` before the per-role dispatch); everything else is ignored —
in particular `MsgPropose` falls through without error. -/
def Raft.stepFollower (r : Raft) (m : Message) : Raft :=
  match m.MsgType with
  | MsgHup => r.becomeCandidate
  | _ => r

/-- `stepCandidate`: tallies vote responses (becoming leader on a won poll),
steps down on `MsgHeartbeat`, and merely logs a dropped `MsgPropose`;
`MsgAppend` and `MsgSnapshot` have no arm and are ignored. -/
def Raft.stepCandidate (r : Raft) (m : Message) : Raft :=
  match m.MsgType with
  | MsgHup => r
  | MsgRequestVoteResponse =>
      let pr := r.poll m.From (!m.Reject)
      if pr.2 then pr.1.becomeLeader else pr.1
  | MsgHeartbeat => r.becomeFollower m.Term m.From
  | MsgPropose => r
  | _ => r

/-- The `switch m.MsgType` body of `Step`, run after the term preamble:
`MsgHup` and `MsgRequestVote` are handled universally, everything else is
dispatched to the handler of the current role. -/
def Raft.stepBody (r : Raft) (m : Message) : Raft × Option GoError :=
  match m.MsgType with
  | MsgHup => (r.hup, none)
  | MsgRequestVote =>
      if r.Vote = m.From ∨ (r.Vote = None ∧ r.Lead = None) then
        let r' := r.send { MsgType := MsgRequestVoteResponse, From := r.id,
                           To := m.From, Term := r.Term }
        ({ r' with electionElapsed := 0, Vote := m.From }, none)
      else
        (r.send { MsgType := MsgRequestVoteResponse, From := r.id,
                  To := m.From, Term := r.Term, Reject := true }, none)
  | _ =>
      match r.State with
      | StateLeader => (r.stepLeader m, none)
      | StateCandidate => (r.stepCandidate m, none)
      | StateFollower => (r.stepFollower m, none)

/-- `Step`: the term preamble (zero term skips it; a higher term steps the
node down, except that a `RequestVote` inside the leader lease is dropped;
a lower term drops the message), then the message-type dispatch. -/
def Raft.Step (r : Raft) (m : Message) : Raft × Option GoError :=
  if m.Term = 0 then
    r.stepBody m
  else if m.Term > r.Term then
    if m.MsgType = MsgRequestVote ∧ r.Lead ≠ None ∧
        r.electionElapsed < r.electionTimeout then
      (r, none)
    else
      let r' :=
        if m.MsgType = MsgAppend ∨ m.MsgType = MsgHeartbeat ∨ m.MsgType = MsgSnapshot then
          r.becomeFollower m.Term m.From
        else
          r.becomeFollower m.Term None
      r'.stepBody m
  else if m.Term < r.Term then
    (r, none)
  else
    r.stepBody m

/-- `tickElection`: bump `electionElapsed`; past the timeout, self-deliver a
`MsgHup` (the returned error is only logged). -/
def Raft.tickElection (r : Raft) : Raft :=
  let r' := { r with electionElapsed := r.electionElapsed + 1 }
  if r'.electionElapsed > r'.electionTimeout then
    (r'.Step { MsgType := MsgHup, From := r'.id }).1
  else r'

/-- `tickHeatbeat` (source spelling): empty body. -/
def Raft.tickHeatbeat (r : Raft) : Raft := r

/-- `tick`: followers and candidates run the election timer, the leader runs
the (empty) heartbeat timer. -/
def Raft.tick (r : Raft) : Raft :=
  match r.State with
  | StateFollower => r.tickElection
  | StateCandidate => r.tickElection
  | StateLeader => r.tickHeatbeat

/-- The configuration fields consumed by `newRaft` (`Storage` is consumed
only through `newLog`, whose result is passed in as a `RaftLog` value). -/
structure Config where
  ID : Nat
  peers : List Nat := []
  ElectionTick : Nat := 0
  HeartbeatTick : Nat := 0
deriving Repr, Inhabited

/-- `Config.validate`: non-zero id, positive heartbeat tick, election tick
strictly greater than heartbeat tick (the storage-nil check concerns a
pointer and is outside the embedding). -/
def Config.validate (c : Config) : Bool :=
  if c.ID = None then false
  else if c.HeartbeatTick ≤ 0 then false
  else if c.ElectionTick ≤ c.HeartbeatTick then false
  else true

/-- `newRaft`: panics on an invalid config (embedded as `none`); otherwise
builds the struct with Go zero values for the unset fields (`Term = 0`,
`Vote = 0`, `State = StateFollower`, empty maps and queue), installs a zeroed
`Progress` for each peer, and runs `becomeFollower(Term, None)`. -/
def newRaft (c : Config) (l : RaftLog) : Option Raft :=
  if c.validate then
    let prs := c.peers.foldl (fun acc i => mapPut acc i {}) []
    let r : Raft :=
      { id := c.ID, RaftLog := l, Prs := prs,
        heartbeatTimeout := c.HeartbeatTick, electionTimeout := c.ElectionTick }
    some (r.becomeFollower r.Term None)
  else
    none

end TinyKV

namespace TinyKV

open StateType MessageType

/-! ### Basic projection lemmas for the role transitions -/

theorem reset_Term (r : Raft) (t : Nat) : (r.reset t).Term = t := by
  unfold Raft.reset
  split <;> simp_all

theorem reset_Prs (r : Raft) (t : Nat) : (r.reset t).Prs = r.Prs := by
  unfold Raft.reset
  split <;> rfl

theorem reset_msgs (r : Raft) (t : Nat) : (r.reset t).msgs = r.msgs := by
  unfold Raft.reset
  split <;> rfl

theorem reset_id (r : Raft) (t : Nat) : (r.reset t).id = r.id := by
  unfold Raft.reset
  split <;> rfl

theorem reset_RaftLog (r : Raft) (t : Nat) : (r.reset t).RaftLog = r.RaftLog := by
  unfold Raft.reset
  split <;> rfl

theorem becomeCandidate_Term (r : Raft) : (r.becomeCandidate).Term = uadd64 r.Term 1 := by
  simp [Raft.becomeCandidate, reset_Term]

theorem becomeCandidate_Prs (r : Raft) : (r.becomeCandidate).Prs = r.Prs := by
  simp [Raft.becomeCandidate, reset_Prs]

theorem becomeCandidate_msgs (r : Raft) : (r.becomeCandidate).msgs = r.msgs := by
  simp [Raft.becomeCandidate, reset_msgs]

theorem becomeCandidate_id (r : Raft) : (r.becomeCandidate).id = r.id := by
  simp [Raft.becomeCandidate, reset_id]

theorem becomeCandidate_RaftLog (r : Raft) : (r.becomeCandidate).RaftLog = r.RaftLog := by
  simp [Raft.becomeCandidate, reset_RaftLog]

theorem becomeFollower_Term (r : Raft) (t ld : Nat) : (r.becomeFollower t ld).Term = t := rfl

theorem becomeFollower_Prs (r : Raft) (t ld : Nat) : (r.becomeFollower t ld).Prs = r.Prs := by
  simp [Raft.becomeFollower, reset_Prs]

theorem becomeFollower_msgs (r : Raft) (t ld : Nat) : (r.becomeFollower t ld).msgs = r.msgs := by
  simp [Raft.becomeFollower, reset_msgs]

theorem becomeFollower_id (r : Raft) (t ld : Nat) : (r.becomeFollower t ld).id = r.id := by
  simp [Raft.becomeFollower, reset_id]

theorem becomeFollower_RaftLog (r : Raft) (t ld : Nat) :
    (r.becomeFollower t ld).RaftLog = r.RaftLog := by
  simp [Raft.becomeFollower, reset_RaftLog]

theorem becomeLeader_Term (r : Raft) : (r.becomeLeader).Term = r.Term := by
  simp [Raft.becomeLeader, reset_Term]

theorem send_Term (r : Raft) (m : Message) : (r.send m).Term = r.Term := rfl

theorem poll_Term (r : Raft) (frm : Nat) (v : Bool) : (r.poll frm v).1.Term = r.Term := by
  unfold Raft.poll
  split
  · rfl
  · dsimp only
    split <;> rfl

/-! ### Concrete states used to evaluate the code where it diverges from the
spec's claims -/

/-- A follower at term 2 with no vote and no leader, whose own log ends in a
term-5 entry at index 10. -/
def c1State : Raft :=
  { id := 1, Term := 2, Vote := 0, RaftLog := { lastIndex := 10, lastTerm := 5 },
    State := StateFollower, Lead := 0, electionTimeout := 10, heartbeatTimeout := 1 }

/-- An equal-term vote request from candidate 9 whose log (last term 1,
last index 1) is strictly less up-to-date than `c1State`'s. -/
def c1Msg : Message :=
  { MsgType := MsgRequestVote, From := 9, To := 1, Term := 2, LogTerm := 1, Index := 1 }

/-- Claim C1: the equal-term `RequestVote` grant path of `Step` never
consults the log. Evaluated at `c1State`/`c1Msg`, the candidate's log is
strictly less up-to-date than the node's own, yet the node grants the vote:
it records `Vote = 9`, zeroes `electionElapsed`, and replies with
`Reject = false` carrying its current term — where the claim requires a
rejection. -/
theorem C1_grant_ignores_log_upToDateness :
    (c1Msg.LogTerm < c1State.RaftLog.LastTerm ∧ c1Msg.Index < c1State.RaftLog.LastIndex) ∧
    (c1State.Step c1Msg).1.Vote = 9 ∧
    (c1State.Step c1Msg).1.electionElapsed = 0 ∧
    (c1State.Step c1Msg).1.msgs =
      [{ MsgType := MsgRequestVoteResponse, To := 9, From := 1, Term := 2, Reject := false }] ∧
    (c1State.Step c1Msg).2 = none := by decide

/-- A candidate at term 5 in a three-peer cluster holding its own granted
vote in the tally. -/
def c2State : Raft :=
  { id := 1, Term := 5, Vote := 1, State := StateCandidate,
    votes := [(1, true)], Prs := [(1, {}), (2, {}), (3, {})] }

/-- Claim C2: with `N = 3` peers, two granted votes are a strict majority
(`2 > ⌊3/2⌋ = 1`), yet the source's test `len(votes) > 1 + len(Prs)/2`
returns `false`; and a denied vote (`poll(3, false)`) is not recorded in the
tally at all, so no denied count is ever tallied. -/
theorem C2_poll_quorum_off_by_one_and_denials_unrecorded :
    ((c2State.poll 2 true).2 = false ∧
     mapLen (c2State.poll 2 true).1.votes = 2 ∧
     mapLen c2State.Prs / 2 = 1) ∧
    (c2State.poll 3 false).1 = c2State ∧
    (c2State.poll 3 false).2 = false := by decide

/-- A leader at term 3 that voted for itself, with a nonzero election timer. -/
def c3State : Raft :=
  { id := 1, Term := 3, Vote := 1, State := StateLeader, Lead := 1,
    electionElapsed := 4, heartbeatElapsed := 1, electionTimeout := 10,
    heartbeatTimeout := 1 }

/-- The higher-term heartbeat of scenario S4. -/
def c3Msg : Message := { MsgType := MsgHeartbeat, From := 7, Term := 5 }

/-- Claim C3: on a higher-term Heartbeat the leader does step down to
Follower with `Term = 5`, `Lead = 7`, `electionElapsed = 0` — but `Vote`
stays `1` instead of being cleared to none, because `becomeFollower` calls
`reset(r.Term)` with the old term, so `reset` never observes a term change
and never clears the vote. -/
theorem C3_higher_term_stepdown_keeps_stale_vote :
    (c3State.Step c3Msg).1.State = StateFollower ∧
    (c3State.Step c3Msg).1.Term = 5 ∧
    (c3State.Step c3Msg).1.Lead = 7 ∧
    (c3State.Step c3Msg).1.electionElapsed = 0 ∧
    (c3State.Step c3Msg).1.Vote = 1 := by decide

/-- A follower at term 1 with no known leader. -/
def c6State : Raft :=
  { id := 2, Term := 1, Vote := 0, State := StateFollower, Lead := 0,
    electionTimeout := 10, heartbeatTimeout := 1 }

/-- A candidate at term 1. -/
def c6CandState : Raft :=
  { id := 2, Term := 1, Vote := 2, State := StateCandidate, Lead := 0,
    electionTimeout := 10, heartbeatTimeout := 1 }

/-- Claim C6: a local `Propose` delivered to the leaderless follower
`c6State` (and to the candidate `c6CandState`) is ignored with result `nil`:
`stepFollower` has no `Propose` arm, `stepCandidate` merely logs the drop,
and `Step` discards the per-role handlers' return values — so
`ErrProposalDropped` is never returned, contrary to the claim. -/
theorem C6_propose_returns_nil_not_ErrProposalDropped :
    c6State.Step { MsgType := MsgPropose } = (c6State, none) ∧
    c6CandState.Step { MsgType := MsgPropose } = (c6CandState, none) := by decide

end TinyKV

namespace TinyKV

open StateType MessageType

/-- Claim C5: a higher-term `RequestVote` arriving while the leader lease is
active (`Lead ≠ none` and `electionElapsed < electionTimeout`) is dropped
silently: `Step` returns `nil` with the node completely unchanged — in
particular the outbound queue is untouched. -/
theorem C5_lease_drops_higher_term_requestVote (r : Raft) (m : Message)
    (h1 : m.MsgType = MsgRequestVote) (h2 : r.Term < m.Term)
    (h3 : r.Lead ≠ None) (h4 : r.electionElapsed < r.electionTimeout) :
    r.Step m = (r, none) := by
  have h0 : ¬ m.Term = 0 := by omega
  simp [Raft.Step, h0, h1, h2, h3, h4]

/-- The follower of scenario S5: term 2, known leader 4, fresh election timer. -/
def c5State : Raft :=
  { id := 1, Term := 2, Vote := 0, State := StateFollower, Lead := 4,
    electionElapsed := 0, electionTimeout := 10, heartbeatTimeout := 1 }

/-- The vote request of scenario S5. -/
def c5Msg : Message := { MsgType := MsgRequestVote, From := 9, Term := 3 }

/-- Witness for C5 at scenario S5's concrete input. -/
theorem C5_lease_drops_higher_term_requestVote_witness :
    c5State.Step c5Msg = (c5State, none) :=
  C5_lease_drops_higher_term_requestVote c5State c5Msg rfl (by decide) (by decide) (by decide)

/-- A follower at term 0 with a stale entry in its vote tally. -/
def c7State : Raft :=
  { id := 1, Term := 0, Vote := 0, votes := [(2, true)], State := StateFollower }

/-- Claim C7 counterexample: after `becomeCandidate` on `c7State` the vote
tally is the fresh empty map, so `votes[id] = true` does not hold — no
self-vote is recorded — even though `Vote = id` is set. -/
theorem C7_becomeCandidate_records_no_self_vote :
    mapHasKey (c7State.becomeCandidate).votes 1 = false ∧
    (c7State.becomeCandidate).Vote = 1 ∧
    (c7State.becomeCandidate).votes = [] := by decide

/-- Claim C7 (amended): `becomeCandidate` increments the term via
`reset(Term + 1)` (the `uint64` increment `uadd64 Term 1`), sets
`Vote = id`, and clears all previously recorded votes to the empty tally —
recording no self-vote in `votes` (the self-vote is only gathered later,
through the self-addressed `RequestVote` that `campaign` enqueues). -/
theorem C7_becomeCandidate_amended (r : Raft) :
    (r.becomeCandidate).Vote = r.id ∧
    (r.becomeCandidate).Term = uadd64 r.Term 1 ∧
    (r.becomeCandidate).votes = [] ∧
    (r.becomeCandidate).State = StateCandidate := by
  refine ⟨rfl, ?_, rfl, rfl⟩
  exact becomeCandidate_Term r

/-- A candidate at term 2 that voted for itself. -/
def c8State : Raft :=
  { id := 1, Term := 2, Vote := 1, State := StateCandidate, Lead := 0,
    electionTimeout := 10, heartbeatTimeout := 1 }

/-- The same-term append a freshly elected leader would send. -/
def c8Msg : Message := { MsgType := MsgAppend, From := 3, Term := 2 }

/-- Claim C8 counterexample: a same-term `MsgAppend` delivered to the
candidate `c8State` is ignored entirely — the node stays Candidate with no
leader recorded — because `stepCandidate` has no arm for `MsgAppend` (nor
for `MsgSnapshot`). -/
theorem C8_candidate_ignores_same_term_append :
    c8State.Step c8Msg = (c8State, none) ∧
    (c8State.Step c8Msg).1.State = StateCandidate := by decide

/-- Claim C8 (amended): for a Candidate at the message's term, only
`MsgHeartbeat` causes a step-down — the whole effect of `Step` is
`becomeFollower(m.Term, m.From)`, with no further follower-handler dispatch —
while `MsgAppend` and `MsgSnapshot` leave the node unchanged. -/
theorem C8_candidate_same_term_amended (r : Raft) (m : Message)
    (hs : r.State = StateCandidate) (ht : m.Term = r.Term) :
    (m.MsgType = MsgHeartbeat → r.Step m = (r.becomeFollower m.Term m.From, none)) ∧
    (m.MsgType = MsgAppend ∨ m.MsgType = MsgSnapshot → r.Step m = (r, none)) := by
  have hstep : r.Step m = r.stepBody m := by
    unfold Raft.Step
    by_cases h0 : m.Term = 0
    · simp [h0]
    · simp [h0, ht]
  constructor
  · intro hmt
    rw [hstep]
    simp [Raft.stepBody, hmt, hs, Raft.stepCandidate]
  · intro hmt
    rw [hstep]
    rcases hmt with hmt | hmt <;>
      simp [Raft.stepBody, hmt, hs, Raft.stepCandidate, Raft.stepLeader]

/-- The same-term heartbeat used in the witness for the amended C8. -/
def c8HbMsg : Message := { MsgType := MsgHeartbeat, From := 3, Term := 2 }

/-- Witness for the amended C8 at a concrete candidate and heartbeat. -/
theorem C8_candidate_same_term_amended_witness :
    (c8HbMsg.MsgType = MsgHeartbeat →
      c8State.Step c8HbMsg = (c8State.becomeFollower c8HbMsg.Term c8HbMsg.From, none)) ∧
    (c8HbMsg.MsgType = MsgAppend ∨ c8HbMsg.MsgType = MsgSnapshot →
      c8State.Step c8HbMsg = (c8State, none)) :=
  C8_candidate_same_term_amended c8State c8HbMsg rfl rfl

/-- Re-inserting the pair a `mapPut` just wrote leaves the map unchanged. -/
theorem mapPut_put_same {α : Type} (m : List (Nat × α)) (k : Nat) (v : α) :
    mapPut (mapPut m k v) k v = mapPut m k v := by
  induction m with
  | nil => simp [mapPut]
  | cons p rest ih =>
    obtain ⟨k', v'⟩ := p
    by_cases h : k' = k
    · simp [mapPut, h]
    · simp [mapPut, h, ih]

/-- Claim C9: recording a granted vote twice from the same peer is
idempotent — the second `poll(from, true)` returns exactly the state and
result of the first, so a duplicate grant never double-counts. -/
theorem C9_poll_granted_idempotent (r : Raft) (frm : Nat) :
    ((r.poll frm true).1).poll frm true = r.poll frm true := by
  unfold Raft.poll
  simp only [Bool.not_true, Bool.false_eq_true, if_false]
  dsimp only
  split <;> simp_all [mapPut_put_same]

end TinyKV

namespace TinyKV

open StateType MessageType

/-- The outbound queue after `campaign`'s broadcast loop: one `RequestVote`
per `Prs` entry, appended in iteration order. -/
theorem foldl_send_requestVote_msgs (l : List (Nat × Progress)) (r : Raft) (li lt : Nat) :
    (l.foldl
      (fun acc p =>
        acc.send { MsgType := MsgRequestVote, From := acc.id, To := p.1,
                   Term := acc.Term, Index := li, LogTerm := lt })
      r).msgs =
    r.msgs ++ l.map (fun p =>
      { MsgType := MsgRequestVote, From := r.id, To := p.1,
        Term := r.Term, Index := li, LogTerm := lt }) := by
  induction l generalizing r with
  | nil => simp
  | cons p rest ih =>
    simp only [List.foldl_cons]
    rw [ih]
    simp [Raft.send]

/-- `campaign` appends to the queue one `RequestVote` at the incremented
term per `Prs` entry, stamped with the node's own id and log watermarks. -/
theorem campaign_msgs (r : Raft) :
    (r.campaign).msgs =
      r.msgs ++ r.Prs.map (fun p =>
        { MsgType := MsgRequestVote, From := r.id, To := p.1, Term := uadd64 r.Term 1,
          Index := r.RaftLog.LastIndex, LogTerm := r.RaftLog.LastTerm }) := by
  unfold Raft.campaign
  rw [foldl_send_requestVote_msgs]
  rw [becomeCandidate_msgs, becomeCandidate_Prs, becomeCandidate_id,
    becomeCandidate_Term, becomeCandidate_RaftLog]

/-- The key just written by `mapPut` is a key of the result. -/
theorem mapPut_self_key {α : Type} (m : List (Nat × α)) (k : Nat) (v : α) :
    k ∈ (mapPut m k v).map Prod.fst := by
  induction m with
  | nil => simp [mapPut]
  | cons p rest ih =>
    obtain ⟨k', v'⟩ := p
    by_cases h : k' = k <;> simp [mapPut, h, ih]

/-- `mapPut` never removes a key. -/
theorem mapPut_mono_key {α : Type} (m : List (Nat × α)) (j k : Nat) (v : α)
    (hj : j ∈ m.map Prod.fst) : j ∈ (mapPut m k v).map Prod.fst := by
  induction m with
  | nil => simp at hj
  | cons p rest ih =>
    obtain ⟨k', v'⟩ := p
    simp only [List.map_cons, List.mem_cons] at hj
    by_cases h : k' = k
    · rcases hj with rfl | hj <;> simp [mapPut, h, ih, *]
    · rcases hj with rfl | hj <;> simp [mapPut, h, ih, *]

/-- Every peer fed to `newRaft`'s `Prs`-building fold ends up as a key of
the progress map (and pre-existing keys survive). -/
theorem foldl_mapPut_key (peers : List Nat) (init : List (Nat × Progress)) (k : Nat)
    (h : k ∈ peers ∨ k ∈ init.map Prod.fst) :
    k ∈ (peers.foldl (fun acc i => mapPut acc i {}) init).map Prod.fst := by
  induction peers generalizing init with
  | nil =>
    rcases h with h | h
    · simp at h
    · simpa using h
  | cons i rest ih =>
    simp only [List.foldl_cons]
    apply ih
    rcases h with h | h
    · rcases List.mem_cons.mp h with rfl | h2
      · exact Or.inr (mapPut_self_key init k {})
      · exact Or.inl h2
    · exact Or.inr (mapPut_mono_key init k i {} h)

/-- Claim C10: a node built by `newRaft` from a bootstrap peer list that
contains its own id has itself in `Prs`, so `campaign` — which broadcasts a
`RequestVote` to every id in `Prs` — enqueues a `RequestVote` addressed to
the node's own id. -/
theorem C10_campaign_sends_requestVote_to_self (c : Config) (l : RaftLog) (r0 : Raft)
    (h0 : newRaft c l = some r0) (hp : c.ID ∈ c.peers) :
    ∃ m ∈ (r0.campaign).msgs, m.To = c.ID ∧ m.MsgType = MsgRequestVote := by
  unfold newRaft at h0
  by_cases hv : c.validate
  · simp only [hv, if_true, Option.some.injEq] at h0
    have hPrs : c.ID ∈ r0.Prs.map Prod.fst := by
      rw [← h0, becomeFollower_Prs]
      exact foldl_mapPut_key c.peers [] c.ID (Or.inl hp)
    obtain ⟨q, hq, hk⟩ := List.mem_map.mp hPrs
    rw [campaign_msgs]
    refine ⟨{ MsgType := MsgRequestVote, From := r0.id, To := q.1, Term := uadd64 r0.Term 1,
              Index := r0.RaftLog.LastIndex, LogTerm := r0.RaftLog.LastTerm }, ?_, by simp [hk], rfl⟩
    apply List.mem_append_right
    exact List.mem_map.mpr ⟨q, hq, rfl⟩
  · simp [hv] at h0

/-- The bootstrap configuration of scenario S1: node 1 among peers 1, 2, 3. -/
def c10Config : Config := { ID := 1, peers := [1, 2, 3], ElectionTick := 10, HeartbeatTick := 1 }

/-- The node `newRaft c10Config {}` constructs. -/
def c10Raft : Raft :=
  { id := 1, RaftLog := {}, Prs := [(1, {}), (2, {}), (3, {})],
    heartbeatTimeout := 1, electionTimeout := 10 }

/-- Witness for C10: the concrete bootstrap node campaigns and addresses a
`RequestVote` to itself. -/
theorem C10_campaign_sends_requestVote_to_self_witness :
    ∃ m ∈ (c10Raft.campaign).msgs, m.To = c10Config.ID ∧ m.MsgType = MsgRequestVote :=
  C10_campaign_sends_requestVote_to_self c10Config {} c10Raft (by decide) (by decide)

end TinyKV

namespace TinyKV

open StateType MessageType

/-- The broadcast loop of `campaign` never touches `Term`. -/
theorem foldl_send_requestVote_Term (l : List (Nat × Progress)) (r : Raft) (li lt : Nat) :
    (l.foldl
      (fun acc p =>
        acc.send { MsgType := MsgRequestVote, From := acc.id, To := p.1,
                   Term := acc.Term, Index := li, LogTerm := lt })
      r).Term = r.Term := by
  induction l generalizing r with
  | nil => rfl
  | cons p rest ih =>
    simp only [List.foldl_cons]
    rw [ih]
    rfl

theorem campaign_Term (r : Raft) : (r.campaign).Term = uadd64 r.Term 1 := by
  unfold Raft.campaign
  rw [foldl_send_requestVote_Term, becomeCandidate_Term]

/-! ### Arithmetic facts about the uint64 term increment -/

theorem uint64Mod_pos : 0 < uint64Mod := by norm_num [uint64Mod]

theorem uadd64_lt_mod (a b : Nat) : uadd64 a b < uint64Mod :=
  Nat.mod_lt _ uint64Mod_pos

theorem uadd64_one_eq (a : Nat) (h : a + 1 < uint64Mod) : uadd64 a 1 = a + 1 :=
  Nat.mod_eq_of_lt h

theorem zero_ne_uint64Mod_sub_one : (0 : Nat) ≠ uint64Mod - 1 := by
  norm_num [uint64Mod]

/-- At the largest uint64 term, `becomeCandidate`'s increment wraps to 0 —
the fact behind the wraparound clause of the amended C4. -/
theorem becomeCandidate_Term_wraps :
    (({ id := 1, Term := uint64Mod - 1 } : Raft).becomeCandidate).Term = 0 := by
  rw [becomeCandidate_Term]
  norm_num [uadd64, uint64Mod]

/-! ### Term monotonicity of the dispatcher, uint64 wrap accounted for -/

theorem hup_Term_ge (r : Raft) (h : r.Term + 1 < uint64Mod) :
    r.Term ≤ (r.hup).Term := by
  unfold Raft.hup
  split
  · exact le_refl _
  · rw [campaign_Term, uadd64_one_eq r.Term h]
    exact Nat.le_succ _

theorem hup_Term_lt (r : Raft) (hr : r.Term < uint64Mod) :
    (r.hup).Term < uint64Mod := by
  unfold Raft.hup
  split
  · exact hr
  · rw [campaign_Term]
    exact uadd64_lt_mod r.Term 1

theorem stepFollower_Term_ge (r : Raft) (m : Message)
    (h : m.MsgType = MsgHup → r.Term + 1 < uint64Mod) :
    r.Term ≤ (r.stepFollower m).Term := by
  unfold Raft.stepFollower
  split
  · next heq =>
      rw [becomeCandidate_Term, uadd64_one_eq r.Term (h heq)]
      exact Nat.le_succ _
  · exact le_refl _

theorem stepFollower_Term_lt (r : Raft) (m : Message) (hr : r.Term < uint64Mod) :
    (r.stepFollower m).Term < uint64Mod := by
  unfold Raft.stepFollower
  split
  · rw [becomeCandidate_Term]
    exact uadd64_lt_mod r.Term 1
  · exact hr

theorem stepCandidate_Term_ge (r : Raft) (m : Message)
    (h : m.MsgType = MsgHeartbeat → r.Term ≤ m.Term) :
    r.Term ≤ (r.stepCandidate m).Term := by
  unfold Raft.stepCandidate
  split
  · exact le_refl _
  · dsimp only
    split
    · rw [becomeLeader_Term, poll_Term]
    · rw [poll_Term]
  · next heq => rw [becomeFollower_Term]; exact h heq
  · exact le_refl _
  · exact le_refl _

theorem stepCandidate_Term_lt (r : Raft) (m : Message)
    (hr : r.Term < uint64Mod) (hm : m.Term < uint64Mod) :
    (r.stepCandidate m).Term < uint64Mod := by
  unfold Raft.stepCandidate
  split
  · exact hr
  · dsimp only
    split
    · rw [becomeLeader_Term, poll_Term]; exact hr
    · rw [poll_Term]; exact hr
  · rw [becomeFollower_Term]; exact hm
  · exact hr
  · exact hr

theorem stepBody_Term_ge (r : Raft) (m : Message)
    (hHb : m.MsgType = MsgHeartbeat → r.Term ≤ m.Term)
    (hHup : m.MsgType = MsgHup → r.Term + 1 < uint64Mod) :
    r.Term ≤ (r.stepBody m).1.Term := by
  unfold Raft.stepBody
  split
  · next heq => exact hup_Term_ge r (hHup heq)
  · split
    · simp [Raft.send]
    · simp [Raft.send]
  · split
    · exact le_refl _
    · exact stepCandidate_Term_ge r m hHb
    · exact stepFollower_Term_ge r m (fun heq => hHup heq)

theorem stepBody_Term_lt (r : Raft) (m : Message)
    (hr : r.Term < uint64Mod) (hm : m.Term < uint64Mod) :
    (r.stepBody m).1.Term < uint64Mod := by
  unfold Raft.stepBody
  split
  · exact hup_Term_lt r hr
  · split
    · simpa [Raft.send] using hr
    · simpa [Raft.send] using hr
  · split
    · exact hr
    · exact stepCandidate_Term_lt r m hr hm
    · exact stepFollower_Term_lt r m hr

/-- `Step` never decreases `Term`, provided the terms involved are uint64
values, a `MsgHeartbeat` carries a nonzero term, and a `MsgHup` cannot make
`becomeCandidate` increment a term equal to `2 ^ 64 - 1`. -/
theorem Step_Term_ge (r : Raft) (m : Message)
    (hr : r.Term < uint64Mod) (hm : m.Term < uint64Mod)
    (hHb : m.MsgType = MsgHeartbeat → m.Term ≠ 0)
    (hHup : m.MsgType = MsgHup → r.Term ≠ uint64Mod - 1 ∧ m.Term ≠ uint64Mod - 1) :
    r.Term ≤ (r.Step m).1.Term := by
  unfold Raft.Step
  by_cases h0 : m.Term = 0
  · simp only [h0, if_true]
    refine stepBody_Term_ge r m (fun hmt => absurd h0 (hHb hmt)) ?_
    intro hmt
    have h1 := (hHup hmt).1
    omega
  · simp only [h0, if_false]
    by_cases hgt : m.Term > r.Term
    · simp only [hgt, if_true]
      split
      · exact le_refl _
      · split <;>
        · refine le_trans (le_of_lt hgt) ?_
          refine le_trans ?_ (stepBody_Term_ge _ m ?_ ?_)
          · rw [becomeFollower_Term]
          · rw [becomeFollower_Term]
            exact fun _ => le_refl _
          · rw [becomeFollower_Term]
            intro hmt
            have h2 := (hHup hmt).2
            omega
    · simp only [hgt, if_false]
      by_cases hlt : m.Term < r.Term
      · simp [hlt]
      · simp only [hlt, if_false]
        have heq : m.Term = r.Term := by omega
        refine stepBody_Term_ge r m (fun _ => le_of_eq heq.symm) ?_
        intro hmt
        have h1 := (hHup hmt).1
        omega

/-- `Step` keeps `Term` a uint64 value. -/
theorem Step_Term_lt (r : Raft) (m : Message)
    (hr : r.Term < uint64Mod) (hm : m.Term < uint64Mod) :
    (r.Step m).1.Term < uint64Mod := by
  unfold Raft.Step
  by_cases h0 : m.Term = 0
  · simp only [h0, if_true]
    exact stepBody_Term_lt r m hr hm
  · simp only [h0, if_false]
    by_cases hgt : m.Term > r.Term
    · simp only [hgt, if_true]
      split
      · exact hr
      · split <;>
        · refine stepBody_Term_lt _ m ?_ hm
          rw [becomeFollower_Term]
          exact hm
    · simp only [hgt, if_false]
      by_cases hlt : m.Term < r.Term
      · simpa [hlt] using hr
      · simp only [hlt, if_false]
        exact stepBody_Term_lt r m hr hm

/-- `tick` never decreases `Term` when the node's term is a uint64 value
other than `2 ^ 64 - 1` (the self-delivered `MsgHup` may campaign). -/
theorem tick_Term_ge (r : Raft) (hr : r.Term < uint64Mod)
    (h : r.Term ≠ uint64Mod - 1) : r.Term ≤ (r.tick).Term := by
  unfold Raft.tick
  have he : r.Term ≤ (r.tickElection).Term := by
    unfold Raft.tickElection
    dsimp only
    split
    · have h2 := Step_Term_ge { r with electionElapsed := r.electionElapsed + 1 }
        { MsgType := MsgHup, From := r.id } hr uint64Mod_pos
        (fun hm => by simp at hm)
        (fun _ => ⟨h, zero_ne_uint64Mod_sub_one⟩)
      exact h2
    · exact le_refl _
  split
  · exact he
  · exact he
  · exact le_refl _

/-- `tick` keeps `Term` a uint64 value. -/
theorem tick_Term_lt (r : Raft) (hr : r.Term < uint64Mod) :
    (r.tick).Term < uint64Mod := by
  unfold Raft.tick
  have he : (r.tickElection).Term < uint64Mod := by
    unfold Raft.tickElection
    dsimp only
    split
    · have h2 := Step_Term_lt { r with electionElapsed := r.electionElapsed + 1 }
        { MsgType := MsgHup, From := r.id } hr uint64Mod_pos
      exact h2
    · exact hr
  split
  · exact he
  · exact he
  · exact hr

/-- One call made by the host: either `Step` on an inbound message or `tick`. -/
inductive Op where
  | opStep (m : Message)
  | opTick
deriving DecidableEq, Repr

/-- Apply one host call to the node. -/
def applyOp (r : Raft) : Op → Raft
  | .opStep m => (r.Step m).1
  | .opTick => r.tick

/-- Run a sequence of host calls in order. -/
def run (r : Raft) : List Op → Raft
  | [] => r
  | o :: os => run (applyOp r o) os

/-- Side conditions under which a call cannot make `Term` decrease, relative
to the state `r` it is applied to: a delivered message's term is a uint64
value; a delivered `MsgHeartbeat` carries a nonzero term (per the spec's
message model, zero-term messages are local ones such as `Hup`, `Propose`
and `Beat`); and no campaign can fire while the term it would increment is
`2 ^ 64 - 1` — for a `MsgHup` step neither the node's current term nor the
message's term is `2 ^ 64 - 1`, and for a `tick` (which may self-deliver a
`MsgHup`) the node's current term is not `2 ^ 64 - 1`. -/
def wfOpAt (r : Raft) : Op → Prop
  | .opStep m => m.Term < uint64Mod ∧
      (m.MsgType = MsgHeartbeat → m.Term ≠ 0) ∧
      (m.MsgType = MsgHup → r.Term ≠ uint64Mod - 1 ∧ m.Term ≠ uint64Mod - 1)
  | .opTick => r.Term ≠ uint64Mod - 1

instance (r : Raft) : DecidablePred (wfOpAt r) := fun o => by
  cases o with
  | opStep m =>
    exact inferInstanceAs (Decidable (m.Term < uint64Mod ∧
      (m.MsgType = MsgHeartbeat → m.Term ≠ 0) ∧
      (m.MsgType = MsgHup → r.Term ≠ uint64Mod - 1 ∧ m.Term ≠ uint64Mod - 1)))
  | opTick => exact inferInstanceAs (Decidable (r.Term ≠ uint64Mod - 1))

/-- A single well-formed call never decreases `Term`. -/
theorem applyOp_Term_ge (r : Raft) (o : Op) (hr : r.Term < uint64Mod)
    (h : wfOpAt r o) : r.Term ≤ (applyOp r o).Term := by
  cases o with
  | opStep m => exact Step_Term_ge r m hr h.1 h.2.1 h.2.2
  | opTick => exact tick_Term_ge r hr h

/-- A single well-formed call keeps `Term` a uint64 value. -/
theorem applyOp_Term_lt (r : Raft) (o : Op) (hr : r.Term < uint64Mod)
    (h : wfOpAt r o) : (applyOp r o).Term < uint64Mod := by
  cases o with
  | opStep m => exact Step_Term_lt r m hr h.1
  | opTick => exact tick_Term_lt r hr

/-- Claim C4 (amended): starting from any node whose `Term` is a uint64
value, along every sequence of `Step` and `tick` calls in which each call is
well formed at the state it is applied to — the delivered terms are uint64
values, no delivered `MsgHeartbeat` carries term zero, and no campaign can
fire at term `2 ^ 64 - 1`, where `becomeCandidate`'s uint64 increment wraps
to 0 — the node's `Term` never decreases: after each call it is at least
what it was before it, and hence at least the initial value at the end of
the trace. (The claim as stated, over fully arbitrary messages, fails both
for a zero-term heartbeat delivered to a Candidate and at the uint64 wrap.) -/
theorem C4_term_monotone_amended (r : Raft) (ops : List Op)
    (hr : r.Term < uint64Mod)
    (h : ∀ i : Fin ops.length, wfOpAt (run r (ops.take i.val)) (ops.get i)) :
    r.Term ≤ (run r ops).Term := by
  induction ops generalizing r with
  | nil => exact le_refl _
  | cons o rest ih =>
    have h0 : wfOpAt r o := h ⟨0, Nat.succ_pos _⟩
    refine le_trans (applyOp_Term_ge r o hr h0) ?_
    refine ih (applyOp r o) (applyOp_Term_lt r o hr h0) ?_
    intro i
    exact h ⟨i.val + 1, Nat.succ_lt_succ i.isLt⟩

/-- A two-peer bootstrap configuration. -/
def c4Config : Config := { ID := 1, peers := [1, 2], ElectionTick := 10, HeartbeatTick := 1 }

/-- The node `newRaft c4Config {}` constructs. -/
def c4Raft : Raft := (newRaft c4Config {}).getD default

/-- The local campaign trigger. -/
def c4Hup : Op := .opStep { MsgType := MsgHup, From := 1 }

/-- A malformed zero-term heartbeat. -/
def c4ZeroHb : Op := .opStep { MsgType := MsgHeartbeat, From := 2, Term := 0 }

/-- Claim C4 counterexample: starting from the freshly constructed node
`c4Raft`, a `MsgHup` raises `Term` to 1, and then a single further `Step`
on a zero-term `MsgHeartbeat` drops `Term` back to 0 — the candidate's
heartbeat arm calls `becomeFollower(m.Term, m.From)` with the message's
term 0, so `Term` decreases across that `Step` call. -/
theorem C4_term_decreases_on_zero_term_heartbeat :
    (run c4Raft [c4Hup]).Term = 1 ∧
    (run c4Raft [c4Hup, c4ZeroHb]).Term = 0 := by decide

/-- A concrete well-formed trace: campaign, one tick, a same-term heartbeat. -/
def c4WfOps : List Op :=
  [c4Hup, .opTick, .opStep { MsgType := MsgHeartbeat, From := 2, Term := 1 }]

/-- Witness for the amended C4 on the concrete well-formed trace. -/
theorem C4_term_monotone_amended_witness :
    c4Raft.Term ≤ (run c4Raft c4WfOps).Term :=
  C4_term_monotone_amended c4Raft c4WfOps (by decide) (by decide)

end TinyKV
